import Mathlib

set_option maxRecDepth 10000

/-!
Verification of the subscription lifecycle subsystem of the newsbullet
backend (src/controllers/payment.controller.js, src/models/Subscription.js,
src/app.js), as a shallow embedding in Lean 4.

Conventions of the embedding:
* JS numbers that hold Razorpay counters are modelled as `Int`.
* JS `Date` values are modelled as `Nat` (milliseconds since epoch);
  Razorpay UNIX timestamps (seconds) are `Nat`, nullable ones `Option Nat`.
* `null`/`undefined` string fields are `Option String`; JS truthiness on
  strings also treats `""` as false, captured by `strTruthy`.
* The MongoDB store is a `List SubRecord`; `findOneAndUpdate` updates the
  first record matching the key and returns the updated record
  (the controller always calls it keyed by `subscriptionId`).
* `new Date()` becomes an explicit `now : Nat` argument threaded into each
  operation.
* Node's `crypto.createHmac("sha256", secret).update(raw).digest("hex")`
  is an external library call; it is modelled from the spec below
  (see `hmacSha256Hex`): HMAC-SHA256 per RFC 2104 over SHA-256 per
  FIPS 180-4, hex-encoded, fully executable so that witnesses can
  evaluate it on concrete inputs.
-/

namespace NewsBullet

/-! ### SHA-256 (FIPS 180-4), executable over byte lists

Modelled from the spec: the Signature Verifier "computes HMAC-SHA256 over
the exact raw bytes using `secret`, hex-encodes, and compares"; the SHA-256
and HMAC primitives themselves live in Node's `crypto` library, outside the
repository, so they are implemented here from their standards. -/

/-- Truncate to a 32-bit word. -/
def w32 (n : Nat) : Nat := n % 4294967296

/-- Right rotation of a 32-bit word. -/
def rotr (n x : Nat) : Nat := w32 ((x >>> n) ||| (x <<< (32 - n)))

def shr (n x : Nat) : Nat := x >>> n

/-- Bitwise complement of a 32-bit word. -/
def bnot32 (x : Nat) : Nat := Nat.xor x 4294967295

def ch (x y z : Nat) : Nat := Nat.xor (Nat.land x y) (Nat.land (bnot32 x) z)

def maj (x y z : Nat) : Nat :=
  Nat.xor (Nat.xor (Nat.land x y) (Nat.land x z)) (Nat.land y z)

def bigSigma0 (x : Nat) : Nat := Nat.xor (Nat.xor (rotr 2 x) (rotr 13 x)) (rotr 22 x)

def bigSigma1 (x : Nat) : Nat := Nat.xor (Nat.xor (rotr 6 x) (rotr 11 x)) (rotr 25 x)

def smallSigma0 (x : Nat) : Nat := Nat.xor (Nat.xor (rotr 7 x) (rotr 18 x)) (shr 3 x)

def smallSigma1 (x : Nat) : Nat := Nat.xor (Nat.xor (rotr 17 x) (rotr 19 x)) (shr 10 x)

/-- The 64 SHA-256 round constants of FIPS 180-4 (the fractional parts of
the cube roots of the first 64 primes), written in decimal. -/
def K256 : List Nat :=
  [1116352408, 1899447441, 3049323471, 3921009573, 961987163, 1508970993,
   2453635748, 2870763221, 3624381080, 310598401, 607225278, 1426881987,
   1925078388, 2162078206, 2614888103, 3248222580, 3835390401, 4022224774,
   264347078, 604807628, 770255983, 1249150122, 1555081692, 1996064986,
   2554220882, 2821834349, 2952996808, 3210313671, 3336571891, 3584528711,
   113926993, 338241895, 666307205, 773529912, 1294757372, 1396182291,
   1695183700, 1986661051, 2177026350, 2456956037, 2730485921, 2820302411,
   3259730800, 3345764771, 3516065817, 3600352804, 4094571909, 275423344,
   430227734, 506948616, 659060556, 883997877, 958139571, 1322822218,
   1537002063, 1747873779, 1955562222, 2024104815, 2227730452, 2361852424,
   2428436474, 2756734187, 3204031479, 3329325298]

/-- The eight 32-bit working variables of the SHA-256 compression function. -/
structure Hash8 where
  a : Nat
  b : Nat
  c : Nat
  d : Nat
  e : Nat
  f : Nat
  g : Nat
  h : Nat
deriving Repr, DecidableEq

def initHash : Hash8 :=
  ⟨1779033703, 3144134277, 1013904242, 2773480762, 1359893119, 2600822924, 528734635, 1541459225⟩

/-- Extend the message schedule: the list holds the words produced so far in
reverse order (head = most recent), so `W (t-2)` is index 1, `W (t-7)` index 6,
`W (t-15)` index 14 and `W (t-16)` index 15. -/
def schedExtend : Nat → List Nat → List Nat
  | 0, l => l
  | n + 1, l =>
    let x := w32 (smallSigma1 (l.getD 1 0) + l.getD 6 0 + smallSigma0 (l.getD 14 0) + l.getD 15 0)
    schedExtend n (x :: l)

def compressRound (st : Hash8) (kw : Nat × Nat) : Hash8 :=
  let t1 := w32 (st.h + bigSigma1 st.e + ch st.e st.f st.g + kw.1 + kw.2)
  let t2 := w32 (bigSigma0 st.a + maj st.a st.b st.c)
  ⟨w32 (t1 + t2), st.a, st.b, st.c, w32 (st.d + t1), st.e, st.f, st.g⟩

def compressBlock (h0 : Hash8) (w : List Nat) : Hash8 :=
  let st := (K256.zip w).foldl compressRound h0
  ⟨w32 (h0.a + st.a), w32 (h0.b + st.b), w32 (h0.c + st.c), w32 (h0.d + st.d),
   w32 (h0.e + st.e), w32 (h0.f + st.f), w32 (h0.g + st.g), w32 (h0.h + st.h)⟩

/-- Group bytes into 32-bit words, big-endian. -/
def bytesToWords : List Nat → List Nat
  | b0 :: b1 :: b2 :: b3 :: rest => (((b0 * 256 + b1) * 256 + b2) * 256 + b3) :: bytesToWords rest
  | _ => []

/-- 8-byte big-endian encoding of a length in bits. -/
def be8 (v : Nat) : List Nat :=
  [(v >>> 56) % 256, (v >>> 48) % 256, (v >>> 40) % 256, (v >>> 32) % 256,
   (v >>> 24) % 256, (v >>> 16) % 256, (v >>> 8) % 256, v % 256]

/-- FIPS 180-4 padding: append 0x80, zero bytes to reach 56 mod 64, then the
message length in bits as 8 big-endian bytes. -/
def padMessage (msg : List Nat) : List Nat :=
  let L := msg.length
  msg ++ (128 :: List.replicate ((119 - L % 64) % 64) 0) ++ be8 (L * 8)

/-- Fold the compression function over consecutive 16-word blocks; the fuel
argument (an upper bound on the number of blocks) keeps the recursion
structural so that the kernel can evaluate it. -/
def sha256Blocks : Nat → List Nat → Hash8 → Hash8
  | 0, _, h => h
  | _, [], h => h
  | fuel + 1, ws, h =>
    let blockRev := (ws.take 16).reverse
    let w := (schedExtend 48 blockRev).reverse
    sha256Blocks fuel (ws.drop 16) (compressBlock h w)

def sha256Hash (msg : List Nat) : Hash8 :=
  let ws := bytesToWords (padMessage msg)
  sha256Blocks ws.length ws initHash

/-- 4-byte big-endian encoding of a 32-bit word. -/
def wordBytesBE (v : Nat) : List Nat :=
  [(v >>> 24) % 256, (v >>> 16) % 256, (v >>> 8) % 256, v % 256]

/-- SHA-256 digest of a byte list, as 32 bytes. -/
def sha256Bytes (msg : List Nat) : List Nat :=
  let s := sha256Hash msg
  wordBytesBE s.a ++ wordBytesBE s.b ++ wordBytesBE s.c ++ wordBytesBE s.d ++
  wordBytesBE s.e ++ wordBytesBE s.f ++ wordBytesBE s.g ++ wordBytesBE s.h

/-- UTF-8 encoding of one character. -/
def charBytes (c : Char) : List Nat :=
  let n := c.toNat
  if n < 128 then [n]
  else if n < 2048 then [192 ||| (n >>> 6), 128 ||| (n &&& 63)]
  else if n < 65536 then
    [224 ||| (n >>> 12), 128 ||| ((n >>> 6) &&& 63), 128 ||| (n &&& 63)]
  else
    [240 ||| (n >>> 18), 128 ||| ((n >>> 12) &&& 63), 128 ||| ((n >>> 6) &&& 63), 128 ||| (n &&& 63)]

/-- UTF-8 bytes of a string (Node strings are hashed as their UTF-8 bytes). -/
def utf8Bytes (s : String) : List Nat := (s.data.map charBytes).flatten

/-- HMAC-SHA256 per RFC 2104 with the standard 64-byte block size. -/
def hmacSha256 (key msg : List Nat) : List Nat :=
  let k0 := if 64 < key.length then sha256Bytes key else key
  let kPad := k0 ++ List.replicate (64 - k0.length) 0
  let ipad := kPad.map fun b => Nat.xor b 54
  let opad := kPad.map fun b => Nat.xor b 92
  sha256Bytes (opad ++ sha256Bytes (ipad ++ msg))

/-- Lowercase hex digit of a value below 16 (`Nat.digitChar` maps 0-15 to
the lowercase hex alphabet, matching Node's `digest("hex")`). -/
def hexChar (n : Nat) : Char := Nat.digitChar n

def hexByte (b : Nat) : List Char := [hexChar (b / 16), hexChar (b % 16)]

def hexOfBytes (bs : List Nat) : String := String.mk (bs.map hexByte).flatten

/-- `crypto.createHmac("sha256", secret).update(msg).digest("hex")`. -/
def hmacSha256Hex (secret msg : String) : String :=
  hexOfBytes (hmacSha256 (utf8Bytes secret) (utf8Bytes msg))

/-! ### JS helper semantics -/

/-- `const toDate = (ts) => (ts ? new Date(ts * 1000) : null)`
(payment.controller.js:14). `none` models `null`/`undefined`; `some 0` is
falsy in JS, hence also mapped to `null`. -/
def toDate : Option Nat → Option Nat
  | none => none
  | some ts => if ts = 0 then none else some (ts * 1000)

/-- JS truthiness of a nullable string: `null`, `undefined` and `""` are
falsy. -/
def strTruthy : Option String → Bool
  | none => false
  | some s => s ≠ ""

/-- JS truthiness of a nullable number: `null`, `undefined` and `0` are
falsy. -/
def numTruthy : Option Nat → Bool
  | none => false
  | some n => n ≠ 0

/-- JS `a || dflt` on a nullable string (`""` also falls back). -/
def jsOr (o : Option String) (dflt : String) : String :=
  match o with
  | some s => if s = "" then dflt else s
  | none => dflt

/-! ### Data model -/

/-- A Razorpay subscription entity, restricted to the fields the controller
reads (`subscription.*` in payment.controller.js). `paid_count` and
`total_count` are always present on gateway responses; `remaining_count` is
nullable and the controller guards it with `??`. -/
structure RzSub where
  id : String
  status : String
  total_count : Int
  paid_count : Int
  remaining_count : Option Int
  start_at : Option Nat
  end_at : Option Nat
  ended_at : Option Nat
  current_start : Option Nat
  current_end : Option Nat
  charge_at : Option Nat
  short_url : String
  notes : List (String × String)
deriving DecidableEq

/-- A Razorpay payment entity, restricted to the fields the controller
reads. -/
structure RzPayment where
  id : String
  amount : Int
  status : String
  created_at : Option Nat
  subscription_id : Option String
  error_description : Option String
deriving DecidableEq

/-- A Razorpay customer (only `customer.id` is read). -/
structure RzCustomer where
  id : String
deriving DecidableEq

/-- A `Plan` document (models/Plan.js), restricted to the fields
`createSubscription` queries. -/
structure Plan where
  razorpayPlanId : String
  name : String
  isActive : Bool
deriving DecidableEq

/-- A `Subscription` document (models/Subscription.js). `status` is kept as a
string because `findOneAndUpdate` does not run the schema enum validator, so
the webhook handlers store the provider status verbatim. The automatic
`createdAt`/`updatedAt` timestamps are omitted (no claim touches them). -/
structure SubRecord where
  userId : String
  subscriptionId : String
  planId : String
  customerId : String
  status : String
  totalCount : Int
  paidCount : Int
  remainingCount : Int
  currentStart : Option Nat
  currentEnd : Option Nat
  startAt : Option Nat
  endAt : Option Nat
  chargeAt : Option Nat
  lastChargedAt : Option Nat
  lastPaymentId : Option String
  lastFailedPaymentId : Option String
  lastFailedAt : Option Nat
  failureReason : Option String
  activatedAt : Option Nat
  cancelledAt : Option Nat
  pausedAt : Option Nat
  resumedAt : Option Nat
  completedAt : Option Nat
  haltedAt : Option Nat
  notes : List (String × String)
deriving DecidableEq

/-- `subscriptionSchema.methods.canCancel` (Subscription.js:146-148). -/
def SubRecord.canCancel (r : SubRecord) : Bool :=
  ["active", "authenticated", "pending"].contains r.status

/-- `subscriptionSchema.methods.canPause` (Subscription.js:153-155). -/
def SubRecord.canPause (r : SubRecord) : Bool :=
  r.status == "active"

/-- `subscriptionSchema.methods.canResume` (Subscription.js:160-162). -/
def SubRecord.canResume (r : SubRecord) : Bool :=
  r.status == "paused"

/-- `subscriptionSchema.methods.isTerminal` (Subscription.js:167-169). -/
def SubRecord.isTerminal (r : SubRecord) : Bool :=
  ["cancelled", "completed", "expired"].contains r.status

/-- The `pre("save")` middleware (Subscription.js:333-339): recompute
`remainingCount` from the counters. It runs on the `save`/`create` path
only; Mongoose does not invoke it for `findOneAndUpdate` (that path only has
the date-coercion `pre("findOneAndUpdate")` hook, which never touches the
counters). -/
def preSave (r : SubRecord) : SubRecord :=
  let diff := r.totalCount - r.paidCount
  { r with remainingCount := if 0 ≤ diff then diff else 0 }

/-- `Subscription.findOneAndUpdate({ subscriptionId }, update, ...)`: update
the first record with the given `subscriptionId` and return the new store
together with the updated document (`new: true`), or `none` when no record
matches. -/
def findOneAndUpdateById (sid : String) (f : SubRecord → SubRecord) :
    List SubRecord → List SubRecord × Option SubRecord
  | [] => ([], none)
  | r :: rs =>
    if r.subscriptionId = sid then (f r :: rs, some (f r))
    else ((r :: (findOneAndUpdateById sid f rs).1), (findOneAndUpdateById sid f rs).2)

/-! ### Webhook payload envelope -/

/-- `req.body.payload`: the handlers read `payload.subscription.entity`
and/or `payload.payment.entity`; a missing entity makes the JS handler throw
a `TypeError`, which its own `catch` swallows, leaving the store untouched. -/
structure EventPayload where
  subscription : Option RzSub
  payment : Option RzPayment
deriving DecidableEq

/-- `req.body` after the webhook middleware: `{event: string, payload}` or
the empty object `{}` (both fields absent) when `JSON.parse` failed. -/
structure ParsedBody where
  event : Option String
  payload : Option EventPayload
deriving DecidableEq

/-! ### Webhook reconciliation handlers
(payment.controller.js:734-1007). Each `applyX` is the field update the
handler passes to `findOneAndUpdate`, keyed by `subscriptionId`; each
`handleX` is the store-level handler including the payload destructuring and
its fail-silent `catch`. -/

/-- Field updates of `handleSubscriptionActivated`. `paid_count || 0` is the
identity on the numeric `paid_count` (only `0` is falsy and maps to `0`). -/
def applyActivated (s : RzSub) (now : Nat) (r : SubRecord) : SubRecord :=
  { r with
    status := "active"
    startAt := toDate s.start_at
    endAt := toDate s.end_at
    currentStart := toDate s.current_start
    currentEnd := toDate s.current_end
    chargeAt := toDate s.charge_at
    activatedAt := some now
    paidCount := s.paid_count
    remainingCount := s.remaining_count.getD s.total_count }

def handleSubscriptionActivated (payload : Option EventPayload) (now : Nat)
    (store : List SubRecord) : List SubRecord :=
  match payload with
  | some ⟨some s, _⟩ => (findOneAndUpdateById s.id (applyActivated s now) store).1
  | _ => store

/-- Field updates of `handleSubscriptionAuthenticated`. -/
def applyAuthenticated (r : SubRecord) : SubRecord :=
  { r with status := "authenticated" }

def handleSubscriptionAuthenticated (payload : Option EventPayload)
    (store : List SubRecord) : List SubRecord :=
  match payload with
  | some ⟨some s, _⟩ => (findOneAndUpdateById s.id applyAuthenticated store).1
  | _ => store

/-- Field updates of `handleSubscriptionCharged`
(payment.controller.js:796-808): every field comes from the event payload
except `lastChargedAt`, which is `new Date()`. -/
def applyCharged (paymentId : String) (s : RzSub) (now : Nat) (r : SubRecord) : SubRecord :=
  { r with
    status := s.status
    lastPaymentId := some paymentId
    lastChargedAt := some now
    paidCount := s.paid_count
    remainingCount := s.remaining_count.getD s.total_count
    currentStart := toDate s.current_start
    currentEnd := toDate s.current_end
    chargeAt := toDate s.charge_at }

def handleSubscriptionCharged (payload : Option EventPayload) (now : Nat)
    (store : List SubRecord) : List SubRecord :=
  match payload with
  | some ⟨some s, some pay⟩ => (findOneAndUpdateById s.id (applyCharged pay.id s now) store).1
  | _ => store

/-- Field updates of `handleSubscriptionCompleted`. -/
def applyCompleted (s : RzSub) (now : Nat) (r : SubRecord) : SubRecord :=
  { r with status := "completed", completedAt := some now, endAt := toDate s.end_at }

def handleSubscriptionCompleted (payload : Option EventPayload) (now : Nat)
    (store : List SubRecord) : List SubRecord :=
  match payload with
  | some ⟨some s, _⟩ => (findOneAndUpdateById s.id (applyCompleted s now) store).1
  | _ => store

/-- Field updates of `handleSubscriptionCancelled`
(`endAt: subscription.ended_at ? toDate(subscription.ended_at) : null`). -/
def applyCancelledEvent (s : RzSub) (now : Nat) (r : SubRecord) : SubRecord :=
  { r with
    status := "cancelled"
    cancelledAt := some now
    endAt := if numTruthy s.ended_at then toDate s.ended_at else none }

def handleSubscriptionCancelled (payload : Option EventPayload) (now : Nat)
    (store : List SubRecord) : List SubRecord :=
  match payload with
  | some ⟨some s, _⟩ => (findOneAndUpdateById s.id (applyCancelledEvent s now) store).1
  | _ => store

/-- Field updates of `handleSubscriptionPaused`. -/
def applyPaused (s : RzSub) (now : Nat) (r : SubRecord) : SubRecord :=
  { r with
    status := "paused"
    pausedAt := some now
    currentStart := toDate s.current_start
    currentEnd := toDate s.current_end
    chargeAt := toDate s.charge_at }

def handleSubscriptionPaused (payload : Option EventPayload) (now : Nat)
    (store : List SubRecord) : List SubRecord :=
  match payload with
  | some ⟨some s, _⟩ => (findOneAndUpdateById s.id (applyPaused s now) store).1
  | _ => store

/-- Field updates of `handleSubscriptionResumed`. -/
def applyResumed (s : RzSub) (now : Nat) (r : SubRecord) : SubRecord :=
  { r with
    status := "active"
    resumedAt := some now
    currentStart := toDate s.current_start
    currentEnd := toDate s.current_end
    chargeAt := toDate s.charge_at }

def handleSubscriptionResumed (payload : Option EventPayload) (now : Nat)
    (store : List SubRecord) : List SubRecord :=
  match payload with
  | some ⟨some s, _⟩ => (findOneAndUpdateById s.id (applyResumed s now) store).1
  | _ => store

/-- Field updates of `handleSubscriptionPending`. -/
def applyPending (r : SubRecord) : SubRecord :=
  { r with status := "pending" }

def handleSubscriptionPending (payload : Option EventPayload)
    (store : List SubRecord) : List SubRecord :=
  match payload with
  | some ⟨some s, _⟩ => (findOneAndUpdateById s.id applyPending store).1
  | _ => store

/-- Field updates of `handleSubscriptionHalted`. -/
def applyHalted (now : Nat) (r : SubRecord) : SubRecord :=
  { r with status := "halted", haltedAt := some now }

def handleSubscriptionHalted (payload : Option EventPayload) (now : Nat)
    (store : List SubRecord) : List SubRecord :=
  match payload with
  | some ⟨some s, _⟩ => (findOneAndUpdateById s.id (applyHalted now) store).1
  | _ => store

/-- Field updates of `handlePaymentFailed` (payment.controller.js:986-993):
only the three failure-tracking fields are written. -/
def applyPaymentFailed (pay : RzPayment) (now : Nat) (r : SubRecord) : SubRecord :=
  { r with
    lastFailedPaymentId := some pay.id
    lastFailedAt := some now
    failureReason := some (jsOr pay.error_description "Payment failed") }

/-- `handlePaymentFailed` (payment.controller.js:981-1007): keyed by
`payment.subscription_id`, guarded by its JS truthiness. -/
def handlePaymentFailed (payload : Option EventPayload) (now : Nat)
    (store : List SubRecord) : List SubRecord :=
  match payload with
  | some ⟨_, some pay⟩ =>
    if strTruthy pay.subscription_id then
      (findOneAndUpdateById (pay.subscription_id.getD "") (applyPaymentFailed pay now) store).1
    else store
  | _ => store

/-! ### Webhook dispatcher and endpoint wiring -/

/-- The inline signature verification of `subscriptionWebhook`
(payment.controller.js:662-670): recompute the hex HMAC-SHA256 of the raw
body under the secret and compare to the received header value. -/
def verifyWebhookSignature (rawBody receivedSignature secret : String) : Bool :=
  receivedSignature == hmacSha256Hex secret rawBody

structure HttpResponse where
  statusCode : Nat
  received : Bool
deriving DecidableEq

/-- Observable outcome of one webhook delivery: the HTTP response, the store
afterwards, and which event name was actually dispatched to a handler
(`none` when the dispatcher stopped before reaching a handler or hit the
`default` branch). -/
structure WebhookOutcome where
  response : HttpResponse
  store : List SubRecord
  handled : Option String
deriving DecidableEq

/-- `subscriptionWebhook` (payment.controller.js:639-728). `webhookSecret` is
`process.env.RAZORPAY_WEBHOOK_SECRET`, `receivedSignature` the
`x-razorpay-signature` header, `rawBody` is `req.rawBody`, `body` the parsed
`req.body`. Each branch mirrors one `return res.status(200).json({received:
true})` of the source; the handlers are total here, so the outer `catch`
(which also returns 200) has no remaining throw sites to absorb. -/
def subscriptionWebhook (webhookSecret receivedSignature : Option String)
    (rawBody : String) (body : ParsedBody) (now : Nat)
    (store : List SubRecord) : WebhookOutcome :=
  if strTruthy webhookSecret = false then
    ⟨⟨200, true⟩, store, none⟩
  else if strTruthy receivedSignature = false then
    ⟨⟨200, true⟩, store, none⟩
  else if rawBody = "" then
    ⟨⟨200, true⟩, store, none⟩
  else if verifyWebhookSignature rawBody (receivedSignature.getD "") (webhookSecret.getD "") = false then
    ⟨⟨200, true⟩, store, none⟩
  else
    match body.event with
    | some "subscription.activated" =>
      ⟨⟨200, true⟩, handleSubscriptionActivated body.payload now store, some "subscription.activated"⟩
    | some "subscription.charged" =>
      ⟨⟨200, true⟩, handleSubscriptionCharged body.payload now store, some "subscription.charged"⟩
    | some "subscription.completed" =>
      ⟨⟨200, true⟩, handleSubscriptionCompleted body.payload now store, some "subscription.completed"⟩
    | some "subscription.cancelled" =>
      ⟨⟨200, true⟩, handleSubscriptionCancelled body.payload now store, some "subscription.cancelled"⟩
    | some "subscription.paused" =>
      ⟨⟨200, true⟩, handleSubscriptionPaused body.payload now store, some "subscription.paused"⟩
    | some "subscription.resumed" =>
      ⟨⟨200, true⟩, handleSubscriptionResumed body.payload now store, some "subscription.resumed"⟩
    | some "subscription.pending" =>
      ⟨⟨200, true⟩, handleSubscriptionPending body.payload store, some "subscription.pending"⟩
    | some "subscription.halted" =>
      ⟨⟨200, true⟩, handleSubscriptionHalted body.payload now store, some "subscription.halted"⟩
    | some "subscription.authenticated" =>
      ⟨⟨200, true⟩, handleSubscriptionAuthenticated body.payload store, some "subscription.authenticated"⟩
    | some "payment.failed" =>
      ⟨⟨200, true⟩, handlePaymentFailed body.payload now store, some "payment.failed"⟩
    | _ =>
      ⟨⟨200, true⟩, store, none⟩

/-- The webhook route wiring (app.js:99-115): keep the raw bytes in
`req.rawBody` and parse them as JSON, falling back to the empty object on a
parse error, then invoke the controller. `JSON.parse` is an external library
call; its outcome is the `parsed` argument (`none` models a parse throw). -/
def webhookEndpoint (webhookSecret receivedSignature : Option String)
    (rawBytes : String) (parsed : Option ParsedBody) (now : Nat)
    (store : List SubRecord) : WebhookOutcome :=
  let body := parsed.getD ⟨none, none⟩
  subscriptionWebhook webhookSecret receivedSignature rawBytes body now store

/-! ### User actions -/

/-- Result of a user-action endpoint: the JSON-returned document (`none`
when `findOneAndUpdate` returned `null`) or a thrown `ApiError` with its
HTTP status code and message. -/
inductive ActionResult where
  | ok (record : Option SubRecord) : ActionResult
  | apiError (statusCode : Nat) (message : String) : ActionResult
deriving DecidableEq

/-- Outcome of a user action: its result, the store afterwards, and the
gateway calls issued, in order. -/
structure ActionOutcome where
  result : ActionResult
  store : List SubRecord
  gatewayCalls : List String
deriving DecidableEq

/-- `pauseSubscription` (payment.controller.js:533-578). `gwPaused` is the
gateway response to `razorpay.subscriptions.pause`. -/
def pauseSubscription (subscriptionId userId : String) (gwPaused : RzSub)
    (now : Nat) (store : List SubRecord) : ActionOutcome :=
  match store.find? (fun r => r.subscriptionId == subscriptionId && r.userId == userId) with
  | none => ⟨.apiError 404 "Subscription not found", store, []⟩
  | some subscription =>
    if subscription.canPause = false then
      ⟨.apiError 400 ("Cannot pause subscription with status: " ++ subscription.status), store, []⟩
    else
      let res := findOneAndUpdateById subscriptionId (fun r =>
        { r with
          status := "paused"
          pausedAt := some now
          currentStart := toDate gwPaused.current_start
          currentEnd := toDate gwPaused.current_end
          chargeAt := toDate gwPaused.charge_at }) store
      ⟨.ok res.2, res.1, ["subscriptions.pause"]⟩

/-- `resumeSubscription` (payment.controller.js:584-629). -/
def resumeSubscription (subscriptionId userId : String) (gwResumed : RzSub)
    (now : Nat) (store : List SubRecord) : ActionOutcome :=
  match store.find? (fun r => r.subscriptionId == subscriptionId && r.userId == userId) with
  | none => ⟨.apiError 404 "Subscription not found", store, []⟩
  | some subscription =>
    if subscription.canResume = false then
      ⟨.apiError 400 ("Cannot resume subscription with status: " ++ subscription.status), store, []⟩
    else
      let res := findOneAndUpdateById subscriptionId (fun r =>
        { r with
          status := "active"
          resumedAt := some now
          currentStart := toDate gwResumed.current_start
          currentEnd := toDate gwResumed.current_end
          chargeAt := toDate gwResumed.charge_at }) store
      ⟨.ok res.2, res.1, ["subscriptions.resume"]⟩

/-- `cancelSubscription` (payment.controller.js:475-527). -/
def cancelSubscription (subscriptionId userId : String) (cancel_at_cycle_end : Bool)
    (gwCancelled : RzSub) (now : Nat) (store : List SubRecord) : ActionOutcome :=
  match store.find? (fun r => r.subscriptionId == subscriptionId && r.userId == userId) with
  | none => ⟨.apiError 404 "Subscription not found", store, []⟩
  | some subscription =>
    if subscription.canCancel = false then
      ⟨.apiError 400 ("Cannot cancel subscription with status: " ++ subscription.status), store, []⟩
    else
      let res := findOneAndUpdateById subscriptionId (fun r =>
        { r with
          status := if cancel_at_cycle_end then "pending_cancellation" else "cancelled"
          cancelledAt := some now
          endAt := if numTruthy gwCancelled.ended_at then toDate gwCancelled.ended_at else none }) store
      ⟨.ok res.2, res.1, ["subscriptions.cancel"]⟩

/-- `createSubscription` (payment.controller.js:183-315). Arguments mirror
the request (`plan_id`, the authenticated user) and the gateway oracles: the
plan collection, whether `razorpay.customers.fetch` succeeds
(`customerFetchOk`), the fetched and freshly created customers, and the
subscription the gateway creates. The stored record goes through the
`pre("save")` hook (`Subscription.create` is a save-path persist). -/
def createSubscription (plan_id : Option String) (userId : String)
    (email : Option String) (plans : List Plan) (customerFetchOk : Bool)
    (gwFetchedCustomer gwCreatedCustomer : RzCustomer) (gwSub : RzSub)
    (store : List SubRecord) : ActionOutcome :=
  if strTruthy plan_id = false then
    ⟨.apiError 400 "plan_id is required", store, []⟩
  else if strTruthy email = false then
    ⟨.apiError 400 "User email is required for subscription", store, []⟩
  else
    let pid := plan_id.getD ""
    match plans.find? (fun p => p.razorpayPlanId == pid && p.isActive) with
    | none =>
      ⟨.apiError 400 "Selected plan is not available. Please choose another plan.", store, []⟩
    | some _ =>
      match store.find? (fun r => r.userId == userId && r.planId == pid &&
          ["created", "authenticated", "active", "pending"].contains r.status) with
      | some _ =>
        ⟨.apiError 400 "You already have an active subscription for this plan", store, []⟩
      | none =>
        let customerRes :=
          match store.find? (fun r => r.userId == userId) with
          | some existingCustomer =>
            if existingCustomer.customerId ≠ "" then
              if customerFetchOk then (gwFetchedCustomer, ["customers.fetch"])
              else (gwCreatedCustomer, ["customers.fetch", "customers.create"])
            else (gwCreatedCustomer, ["customers.create"])
          | none => (gwCreatedCustomer, ["customers.create"])
        let customer := customerRes.1
        let customerCalls := customerRes.2
        let newSubscription := preSave
          { userId := userId
            subscriptionId := gwSub.id
            planId := pid
            customerId := customer.id
            status := gwSub.status
            totalCount := gwSub.total_count
            paidCount := gwSub.paid_count
            remainingCount := gwSub.remaining_count.getD gwSub.total_count
            startAt := toDate gwSub.start_at
            endAt := toDate gwSub.end_at
            chargeAt := toDate gwSub.charge_at
            currentStart := toDate gwSub.current_start
            currentEnd := toDate gwSub.current_end
            lastChargedAt := none
            lastPaymentId := none
            lastFailedPaymentId := none
            lastFailedAt := none
            failureReason := none
            activatedAt := none
            cancelledAt := none
            pausedAt := none
            resumedAt := none
            completedAt := none
            haltedAt := none
            notes := gwSub.notes }
        ⟨.ok (some newSubscription), store ++ [newSubscription],
         customerCalls ++ ["subscriptions.create"]⟩

/-- The failure-path persist of `verifySubscriptionPayment`
(payment.controller.js:339-345): mark the record `failed` with reason
"Invalid signature"; no other field is written. -/
def applyVerifyFailed (r : SubRecord) : SubRecord :=
  { r with status := "failed", failureReason := some "Invalid signature" }

/-- The success-path field update of `verifySubscriptionPayment`
(payment.controller.js:359-377): billing fields from the re-fetched
gateway subscription and payment; `activatedAt: ... ? new Date() :
undefined`, and Mongoose strips `undefined`, so the field is written only
when the gateway status is `active`. -/
def applyVerifyPayment (pid : String) (gwSub : RzSub) (gwPayment : RzPayment)
    (now : Nat) (r : SubRecord) : SubRecord :=
  { r with
    lastPaymentId := some pid
    status := gwSub.status
    paidCount := gwSub.paid_count
    remainingCount := gwSub.remaining_count.getD gwSub.total_count
    lastChargedAt := if numTruthy gwPayment.created_at then toDate gwPayment.created_at
      else some now
    currentStart := toDate gwSub.current_start
    currentEnd := toDate gwSub.current_end
    chargeAt := toDate gwSub.charge_at
    activatedAt := if gwSub.status == "active" then some now else r.activatedAt }

/-- `verifySubscriptionPayment` (payment.controller.js:320-402). `secret` is
`process.env.RAZORPAY_SECRET`; `gwSub` and `gwPayment` are the gateway
re-fetch responses used on the success path. -/
def verifySubscriptionPayment
    (razorpay_payment_id razorpay_subscription_id razorpay_signature : Option String)
    (secret : String) (gwSub : RzSub) (gwPayment : RzPayment) (now : Nat)
    (store : List SubRecord) : ActionOutcome :=
  if strTruthy razorpay_payment_id = false || strTruthy razorpay_subscription_id = false ||
      strTruthy razorpay_signature = false then
    ⟨.apiError 400 "Missing required payment verification fields", store, []⟩
  else
    let pid := razorpay_payment_id.getD ""
    let sid := razorpay_subscription_id.getD ""
    let generatedSignature := hmacSha256Hex secret (pid ++ "|" ++ sid)
    if generatedSignature ≠ razorpay_signature.getD "" then
      let res := findOneAndUpdateById sid applyVerifyFailed store
      ⟨.apiError 400 "Invalid payment signature", res.1, []⟩
    else
      let res := findOneAndUpdateById sid (applyVerifyPayment pid gwSub gwPayment now) store
      match res.2 with
      | none => ⟨.apiError 404 "Subscription not found in database", res.1, ["subscriptions.fetch", "payments.fetch"]⟩
      | some u => ⟨.ok (some u), res.1, ["subscriptions.fetch", "payments.fetch"]⟩

/-! ### Concrete fixtures used by witnesses and counterexamples -/

/-- A stored subscription with a consistent counter state. -/
def sampleSub : SubRecord :=
  { userId := "user-1", subscriptionId := "sub-1", planId := "plan-1",
    customerId := "cust-1", status := "active", totalCount := 12,
    paidCount := 0, remainingCount := 12, currentStart := none,
    currentEnd := none, startAt := none, endAt := none, chargeAt := none,
    lastChargedAt := none, lastPaymentId := none, lastFailedPaymentId := none,
    lastFailedAt := none, failureReason := none, activatedAt := none,
    cancelledAt := none, pausedAt := none, resumedAt := none,
    completedAt := none, haltedAt := none, notes := [] }

def pausedSub : SubRecord := { sampleSub with status := "paused" }

def authenticatedSub : SubRecord := { sampleSub with status := "authenticated" }

/-- A gateway subscription entity for `sub-1`; its `remaining_count` is not
`total_count - paid_count` of the stored record. -/
def sampleGwSub : RzSub :=
  { id := "sub-1", status := "active", total_count := 12, paid_count := 2,
    remaining_count := some 5, start_at := some 1700000000,
    end_at := some 1731536000, ended_at := none,
    current_start := some 1700000000, current_end := some 1702592000,
    charge_at := some 1702592000, short_url := "https://rzp.io/i/x",
    notes := [] }

def samplePayment : RzPayment :=
  { id := "pay-1", amount := 49900, status := "captured",
    created_at := some 1700000100, subscription_id := some "sub-1",
    error_description := none }

def samplePlan : Plan :=
  { razorpayPlanId := "plan-1", name := "Monthly", isActive := true }

/-! ### Helper lemmas -/

theorem hexFlatten_length (bs : List Nat) : ((bs.map hexByte).flatten).length = 2 * bs.length := by
  induction bs with
  | nil => rfl
  | cons b l ih => simp [hexByte] at ih ⊢; omega

theorem sha256Bytes_length (msg : List Nat) : (sha256Bytes msg).length = 32 := by
  simp [sha256Bytes, wordBytesBE]

theorem hmacSha256_length (key msg : List Nat) : (hmacSha256 key msg).length = 32 := by
  simp only [hmacSha256]
  exact sha256Bytes_length _

theorem hmacSha256Hex_ne_empty (secret msg : String) : hmacSha256Hex secret msg ≠ "" := by
  intro h
  have h64 : (hmacSha256Hex secret msg).length = 64 := by
    have hl := hexFlatten_length (hmacSha256 (utf8Bytes secret) (utf8Bytes msg))
    rw [hmacSha256_length] at hl
    simpa [hmacSha256Hex, hexOfBytes, String.length] using hl
  rw [h] at h64
  simp at h64

/-- `findOneAndUpdateById` updates in place: when `find?` locates the first
record carrying the key, the store splits around that record and exactly it
is rewritten by the update function, every other record staying untouched. -/
theorem findOneAndUpdateById_eq_of_find? (sid : String) (f : SubRecord → SubRecord) :
    ∀ (store : List SubRecord) (r₀ : SubRecord),
      store.find? (fun r => r.subscriptionId == sid) = some r₀ →
      ∃ l1 l2, store = l1 ++ r₀ :: l2 ∧
        findOneAndUpdateById sid f store = (l1 ++ f r₀ :: l2, some (f r₀))
  | [], r₀, h => by simp at h
  | a :: l, r₀, h => by
    by_cases ha : a.subscriptionId = sid
    · have hr : r₀ = a := by
        rw [List.find?_cons_of_pos _ (by simpa using ha)] at h
        exact (Option.some_injective _ h).symm
      subst hr
      exact ⟨[], l, rfl, by simp [findOneAndUpdateById, ha]⟩
    · have h' : l.find? (fun r => r.subscriptionId == sid) = some r₀ := by
        rwa [List.find?_cons_of_neg _ (by simpa using ha)] at h
      obtain ⟨l1, l2, hsplit, heq⟩ := findOneAndUpdateById_eq_of_find? sid f l r₀ h'
      exact ⟨a :: l1, l2, by rw [hsplit]; rfl, by simp [findOneAndUpdateById, ha, heq]⟩

/-- When some record in the store carries the key, `findOneAndUpdateById`
returns an updated document. -/
theorem findOneAndUpdateById_some_of_mem (sid : String) (f : SubRecord → SubRecord) :
    ∀ (store : List SubRecord) (r : SubRecord), r ∈ store → r.subscriptionId = sid →
      ∃ r₀, r₀ ∈ store ∧ r₀.subscriptionId = sid ∧
        (findOneAndUpdateById sid f store).2 = some (f r₀)
  | [], r, hmem, _ => absurd hmem (List.not_mem_nil r)
  | a :: l, r, hmem, hsid => by
    by_cases ha : a.subscriptionId = sid
    · exact ⟨a, List.mem_cons_self a l, ha, by simp [findOneAndUpdateById, ha]⟩
    · have hrl : r ∈ l := by
        rcases List.mem_cons.mp hmem with h | h
        · exact absurd (h ▸ hsid) ha
        · exact h
      obtain ⟨r₀, hr₀, hr₀id, heq⟩ := findOneAndUpdateById_some_of_mem sid f l r hrl hsid
      exact ⟨r₀, List.mem_cons_of_mem a hr₀, hr₀id, by simp [findOneAndUpdateById, ha, heq]⟩

/-- Pointwise properties preserved by the update function are preserved by
`findOneAndUpdateById` across the whole store. -/
theorem findOneAndUpdateById_forall (P : SubRecord → Prop) (sid : String)
    (f : SubRecord → SubRecord) (hf : ∀ r, P r → P (f r)) :
    ∀ store : List SubRecord, (∀ r ∈ store, P r) →
      ∀ r' ∈ (findOneAndUpdateById sid f store).1, P r'
  | [], _, r', h' => absurd h' (List.not_mem_nil r')
  | a :: l, h, r', h' => by
    by_cases ha : a.subscriptionId = sid
    · simp [findOneAndUpdateById, ha] at h'
      rcases h' with h' | h'
      · exact h' ▸ hf a (h a (List.mem_cons_self a l))
      · exact h r' (List.mem_cons_of_mem a h')
    · simp [findOneAndUpdateById, ha] at h'
      rcases h' with h' | h'
      · exact h' ▸ h a (List.mem_cons_self a l)
      · exact findOneAndUpdateById_forall P sid f hf l
          (fun r hr => h r (List.mem_cons_of_mem a hr)) r' h'

/-! ### Claim theorems -/

set_option maxHeartbeats 2000000 in
/-- C4: for every webhook delivery — secret unset, signature header absent,
raw body absent, invalid signature, unknown event name, or any dispatched
handler — the caller-visible outcome is HTTP 200 with `{received: true}`;
no input propagates an error to the caller. -/
theorem webhook_always_acknowledge (webhookSecret receivedSignature : Option String)
    (rawBody : String) (body : ParsedBody) (now : Nat) (store : List SubRecord) :
    (subscriptionWebhook webhookSecret receivedSignature rawBody body now store).response =
      ⟨200, true⟩ := by
  unfold subscriptionWebhook
  split
  · rfl
  split
  · rfl
  split
  · rfl
  split
  · rfl
  split
  all_goals rfl

/-- C2 (amended): re-applying the `subscription.charged` field update with
the same payload changes nothing except `lastChargedAt`, which is set to the
wall-clock instant of each application (`new Date()`, the one touched field
not derived from the event payload); in particular applying the handler
twice at the same instant yields exactly the same record as applying it
once, and no touched field reads the previously stored local state. -/
theorem charged_reapply_frame (paymentId : String) (s : RzSub) (t₁ t₂ : Nat) (r : SubRecord) :
    applyCharged paymentId s t₂ (applyCharged paymentId s t₁ r) =
      { applyCharged paymentId s t₁ r with lastChargedAt := some t₂ } ∧
    applyCharged paymentId s t₁ (applyCharged paymentId s t₁ r) =
      applyCharged paymentId s t₁ r :=
  ⟨rfl, rfl⟩

/-- C2 counterexample: applying the same `subscription.charged` event twice
does not equal applying it once, because `lastChargedAt` is `new Date()` at
each application — here the two deliveries happen at t=1000 and t=2000. -/
theorem charged_idempotent_cex :
    handleSubscriptionCharged (some ⟨some sampleGwSub, some samplePayment⟩) 2000
        (handleSubscriptionCharged (some ⟨some sampleGwSub, some samplePayment⟩) 1000 [sampleSub]) ≠
      handleSubscriptionCharged (some ⟨some sampleGwSub, some samplePayment⟩) 1000 [sampleSub] := by
  decide

/-- C5: webhook signature verification accepts exactly when the hex-encoded
HMAC-SHA256 of the raw body under the secret equals the received signature;
consequently replacing an accepted signature by any other string flips the
verdict to reject, and replacing an accepted body by any body with a
different HMAC digest (i.e. any mutation short of an HMAC-SHA256 collision,
in particular any single-byte mutation that does not collide) flips the
verdict to reject. -/
theorem webhook_signature_correct :
    (∀ rawBody receivedSignature secret,
      verifyWebhookSignature rawBody receivedSignature secret = true ↔
        hmacSha256Hex secret rawBody = receivedSignature) ∧
    (∀ rawBody receivedSignature secret,
      verifyWebhookSignature rawBody receivedSignature secret = true →
      ∀ sig', sig' ≠ receivedSignature →
        verifyWebhookSignature rawBody sig' secret = false) ∧
    (∀ rawBody receivedSignature secret,
      verifyWebhookSignature rawBody receivedSignature secret = true →
      ∀ raw', hmacSha256Hex secret raw' ≠ hmacSha256Hex secret rawBody →
        verifyWebhookSignature raw' receivedSignature secret = false) := by
  refine ⟨?_, ?_, ?_⟩
  · intro raw sig secret
    unfold verifyWebhookSignature
    rw [beq_iff_eq]
    exact eq_comm
  · intro raw sig secret h sig' hne
    have hs : sig = hmacSha256Hex secret raw := by
      simpa [verifyWebhookSignature] using h
    simp [verifyWebhookSignature]
    exact fun hc => hne (hc.trans hs.symm)
  · intro raw sig secret h raw' hne
    have hs : sig = hmacSha256Hex secret raw := by
      simpa [verifyWebhookSignature] using h
    simp [verifyWebhookSignature]
    intro hc
    exact hne ((hs.symm.trans hc).symm)

/-- C5 witness: the first conjunct evaluated at a concrete body and its
genuine digest; the second and third conjuncts applied at concrete
mutations — a corrupted signature and a one-byte body mutation whose
digests are computed and compared. -/
theorem webhook_signature_correct_witness :
    verifyWebhookSignature "rawbody-x" (hmacSha256Hex "whsec" "rawbody-x") "whsec" = true ∧
    verifyWebhookSignature "rawbody-x" "0000" "whsec" = false ∧
    verifyWebhookSignature "rawbody-y" (hmacSha256Hex "whsec" "rawbody-x") "whsec" = false := by
  have h1 : verifyWebhookSignature "rawbody-x" (hmacSha256Hex "whsec" "rawbody-x") "whsec" = true :=
    (webhook_signature_correct.1 "rawbody-x" (hmacSha256Hex "whsec" "rawbody-x") "whsec").mpr rfl
  refine ⟨h1, ?_, ?_⟩
  · exact webhook_signature_correct.2.1 "rawbody-x" (hmacSha256Hex "whsec" "rawbody-x") "whsec"
      h1 "0000" (by decide)
  · exact webhook_signature_correct.2.2 "rawbody-x" (hmacSha256Hex "whsec" "rawbody-x") "whsec"
      h1 "rawbody-y" (by decide)

/-- C6: pausing a stored subscription whose status is not `active` fails
with the invalid-state-transition `ApiError` naming the current status, and
resuming one whose status is not `paused` likewise fails; in both failure
cases the store is left unmodified and no gateway call is issued. -/
theorem pause_resume_transition_guard :
    (∀ (sid uid : String) (gw : RzSub) (now : Nat) (store : List SubRecord) (sub : SubRecord),
      store.find? (fun r => r.subscriptionId == sid && r.userId == uid) = some sub →
      sub.status ≠ "active" →
      pauseSubscription sid uid gw now store =
        ⟨.apiError 400 ("Cannot pause subscription with status: " ++ sub.status), store, []⟩) ∧
    (∀ (sid uid : String) (gw : RzSub) (now : Nat) (store : List SubRecord) (sub : SubRecord),
      store.find? (fun r => r.subscriptionId == sid && r.userId == uid) = some sub →
      sub.status ≠ "paused" →
      resumeSubscription sid uid gw now store =
        ⟨.apiError 400 ("Cannot resume subscription with status: " ++ sub.status), store, []⟩) := by
  constructor
  · intro sid uid gw now store sub hfind hst
    unfold pauseSubscription
    rw [hfind]
    have hp : sub.canPause = false := by
      simp [SubRecord.canPause, hst]
    simp [hp]
  · intro sid uid gw now store sub hfind hst
    unfold resumeSubscription
    rw [hfind]
    have hp : sub.canResume = false := by
      simp [SubRecord.canResume, hst]
    simp [hp]

/-- C6 witness: pausing a `paused` subscription and resuming an `active`
one are both rejected without touching the store. -/
theorem pause_resume_transition_guard_witness :
    pauseSubscription "sub-1" "user-1" sampleGwSub 1000 [pausedSub] =
      ⟨.apiError 400 ("Cannot pause subscription with status: " ++ pausedSub.status),
       [pausedSub], []⟩ ∧
    resumeSubscription "sub-1" "user-1" sampleGwSub 1000 [sampleSub] =
      ⟨.apiError 400 ("Cannot resume subscription with status: " ++ sampleSub.status),
       [sampleSub], []⟩ :=
  ⟨pause_resume_transition_guard.1 "sub-1" "user-1" sampleGwSub 1000 [pausedSub] pausedSub
      (by decide) (by decide),
   pause_resume_transition_guard.2 "sub-1" "user-1" sampleGwSub 1000 [sampleSub] sampleSub
      (by decide) (by decide)⟩

/-- C7: for a stored subscription owned by the requesting user, cancel
succeeds from statuses active/authenticated/pending — setting the local
status to `pending_cancellation` when end-of-cycle is requested and to
`cancelled` otherwise, and stamping `cancelledAt` — and from any other
status it fails with the invalid-state-transition `ApiError` identifying
the current status, leaving the store unmodified. -/
theorem cancel_transition_spec :
    (∀ (sid uid : String) (flag : Bool) (gw : RzSub) (now : Nat)
        (store : List SubRecord) (sub : SubRecord),
      store.find? (fun r => r.subscriptionId == sid && r.userId == uid) = some sub →
      (sub.status = "active" ∨ sub.status = "authenticated" ∨ sub.status = "pending") →
      ∃ u, (cancelSubscription sid uid flag gw now store).result = .ok (some u) ∧
        u.status = (if flag then "pending_cancellation" else "cancelled") ∧
        u.cancelledAt = some now ∧
        (cancelSubscription sid uid flag gw now store).gatewayCalls = ["subscriptions.cancel"]) ∧
    (∀ (sid uid : String) (flag : Bool) (gw : RzSub) (now : Nat)
        (store : List SubRecord) (sub : SubRecord),
      store.find? (fun r => r.subscriptionId == sid && r.userId == uid) = some sub →
      sub.status ≠ "active" → sub.status ≠ "authenticated" → sub.status ≠ "pending" →
      cancelSubscription sid uid flag gw now store =
        ⟨.apiError 400 ("Cannot cancel subscription with status: " ++ sub.status), store, []⟩) := by
  constructor
  · intro sid uid flag gw now store sub hfind hst
    have hmem : sub ∈ store := List.mem_of_find?_eq_some hfind
    have hsid : sub.subscriptionId = sid := by
      have h := List.find?_some hfind
      simp at h
      exact h.1
    have hcan : sub.canCancel = true := by
      rcases hst with h | h | h <;> simp [SubRecord.canCancel, h]
    obtain ⟨r₀, _hmem₀, _hsid₀, heq⟩ := findOneAndUpdateById_some_of_mem sid (fun r =>
      { r with
        status := if flag then "pending_cancellation" else "cancelled"
        cancelledAt := some now
        endAt := if numTruthy gw.ended_at then toDate gw.ended_at else none })
      store sub hmem hsid
    have hrun : cancelSubscription sid uid flag gw now store =
        ⟨.ok (findOneAndUpdateById sid (fun r =>
            { r with
              status := if flag then "pending_cancellation" else "cancelled"
              cancelledAt := some now
              endAt := if numTruthy gw.ended_at then toDate gw.ended_at else none }) store).2,
          (findOneAndUpdateById sid (fun r =>
            { r with
              status := if flag then "pending_cancellation" else "cancelled"
              cancelledAt := some now
              endAt := if numTruthy gw.ended_at then toDate gw.ended_at else none }) store).1,
          ["subscriptions.cancel"]⟩ := by
      unfold cancelSubscription
      rw [hfind]
      simp [hcan]
    rw [hrun, heq]
    exact ⟨_, rfl, rfl, rfl, rfl⟩
  · intro sid uid flag gw now store sub hfind h1 h2 h3
    unfold cancelSubscription
    rw [hfind]
    have hcan : sub.canCancel = false := by
      simp [SubRecord.canCancel, h1, h2, h3]
    simp [hcan]

/-- C7 witness: cancelling an `authenticated` subscription immediately
(no end-of-cycle flag) succeeds and stamps `cancelled`/`cancelledAt`, and
cancelling a `paused` one is rejected. -/
theorem cancel_transition_spec_witness :
    (∃ u, (cancelSubscription "sub-1" "user-1" false sampleGwSub 1000 [authenticatedSub]).result =
        .ok (some u) ∧
      u.status = (if false then "pending_cancellation" else "cancelled") ∧
      u.cancelledAt = some 1000 ∧
      (cancelSubscription "sub-1" "user-1" false sampleGwSub 1000 [authenticatedSub]).gatewayCalls =
        ["subscriptions.cancel"]) ∧
    cancelSubscription "sub-1" "user-1" false sampleGwSub 1000 [pausedSub] =
      ⟨.apiError 400 ("Cannot cancel subscription with status: " ++ pausedSub.status),
       [pausedSub], []⟩ :=
  ⟨cancel_transition_spec.1 "sub-1" "user-1" false sampleGwSub 1000 [authenticatedSub]
      authenticatedSub (by decide) (Or.inr (Or.inl rfl)),
   cancel_transition_spec.2 "sub-1" "user-1" false sampleGwSub 1000 [pausedSub] pausedSub
      (by decide) (by decide) (by decide) (by decide)⟩

/-- C9: the `payment.failed` handler, applied to a payload carrying a stored
record's `subscriptionId`, rewrites exactly that record and touches only its
`lastFailedPaymentId`, `lastFailedAt` and `failureReason` fields — every
other record and every other field, in particular `status`, is unchanged. -/
theorem payment_failed_frame (su : Option RzSub) (pay : RzPayment) (now : Nat)
    (store : List SubRecord) (r₀ : SubRecord)
    (hpay : pay.subscription_id = some r₀.subscriptionId)
    (hne : r₀.subscriptionId ≠ "")
    (hfind : store.find? (fun r => r.subscriptionId == r₀.subscriptionId) = some r₀) :
    ∃ l1 l2, store = l1 ++ r₀ :: l2 ∧
      handlePaymentFailed (some ⟨su, some pay⟩) now store =
        l1 ++ { r₀ with
                lastFailedPaymentId := some pay.id
                lastFailedAt := some now
                failureReason := some (jsOr pay.error_description "Payment failed") } :: l2 ∧
      (applyPaymentFailed pay now r₀).status = r₀.status := by
  obtain ⟨l1, l2, hsplit, heq⟩ :=
    findOneAndUpdateById_eq_of_find? r₀.subscriptionId (applyPaymentFailed pay now) store r₀ hfind
  refine ⟨l1, l2, hsplit, ?_, rfl⟩
  have ht : strTruthy (some r₀.subscriptionId) = true := by simp [strTruthy, hne]
  show (if strTruthy pay.subscription_id = true then
      (findOneAndUpdateById (pay.subscription_id.getD "") (applyPaymentFailed pay now) store).1
    else store) = _
  rw [hpay, ht, if_pos rfl]
  show (findOneAndUpdateById r₀.subscriptionId (applyPaymentFailed pay now) store).1 = _
  rw [heq]
  rfl

/-- C9 witness: a concrete `payment.failed` delivery for `sub-1` updates
exactly the failure-tracking fields of the stored record. -/
theorem payment_failed_frame_witness :
    ∃ l1 l2, ([sampleSub] : List SubRecord) = l1 ++ sampleSub :: l2 ∧
      handlePaymentFailed (some ⟨none, some samplePayment⟩) 1000 [sampleSub] =
        l1 ++ { sampleSub with
                lastFailedPaymentId := some samplePayment.id
                lastFailedAt := some 1000
                failureReason := some (jsOr samplePayment.error_description "Payment failed") } :: l2 ∧
      (applyPaymentFailed samplePayment 1000 sampleSub).status = sampleSub.status :=
  payment_failed_frame none samplePayment 1000 [sampleSub] sampleSub rfl
    (by decide) (by decide)

/-- C10: a webhook delivery whose raw body fails JSON parsing — the
middleware then sets `req.body` to the empty object — but whose signature is
valid over the raw bytes dispatches no handler, modifies no subscription
record, and still responds HTTP 200 `{received: true}`. -/
theorem invalid_json_webhook_noop (sec raw : String) (sig : Option String)
    (now : Nat) (store : List SubRecord)
    (hsig : sig = some (hmacSha256Hex sec raw)) :
    webhookEndpoint (some sec) sig raw none now store = ⟨⟨200, true⟩, store, none⟩ := by
  subst hsig
  unfold webhookEndpoint subscriptionWebhook
  by_cases hsec : sec = ""
  · rw [if_pos (by simp [strTruthy, hsec])]
  · rw [if_neg (by simp [strTruthy, hsec]),
        if_neg (by simp [strTruthy, hmacSha256Hex_ne_empty sec raw])]
    by_cases hraw : raw = ""
    · rw [if_pos hraw]
    · rw [if_neg hraw, if_neg (by simp [verifyWebhookSignature])]
      rfl

/-- C10 witness: a concrete non-JSON body, genuinely signed with the
webhook secret, is acknowledged with the store untouched and no handler
run. -/
theorem invalid_json_webhook_noop_witness :
    webhookEndpoint (some "whsec-10") (some (hmacSha256Hex "whsec-10" "not-json")) "not-json"
        none 1000 [sampleSub] = ⟨⟨200, true⟩, [sampleSub], none⟩ :=
  invalid_json_webhook_noop "whsec-10" "not-json" _ 1000 [sampleSub] rfl

/-- C8: payment verification recomputes the hex HMAC-SHA256 of
`paymentId|subscriptionId`; on mismatch the targeted record is set to
status `failed` with reason "Invalid signature" — its other fields and all
other records untouched — and the request fails with an `ApiError`, without
gateway calls; on match the record is updated from the re-fetched gateway
subscription and payment (status, counters, `lastPaymentId`,
`lastChargedAt`, cycle timestamps), with `activatedAt` stamped exactly when
the gateway-reported status is `active`. -/
theorem verify_payment_spec :
    (∀ (pid sid sig secret : String) (gwSub : RzSub) (gwPayment : RzPayment)
        (now : Nat) (store : List SubRecord) (r₀ : SubRecord),
      pid ≠ "" → sid ≠ "" → sig ≠ "" →
      sig ≠ hmacSha256Hex secret (pid ++ "|" ++ sid) →
      store.find? (fun r => r.subscriptionId == sid) = some r₀ →
      ∃ l1 l2, store = l1 ++ r₀ :: l2 ∧
        verifySubscriptionPayment (some pid) (some sid) (some sig) secret gwSub gwPayment
            now store =
          ⟨.apiError 400 "Invalid payment signature",
           l1 ++ { r₀ with status := "failed", failureReason := some "Invalid signature" } :: l2,
           []⟩) ∧
    (∀ (pid sid secret : String) (gwSub : RzSub) (gwPayment : RzPayment)
        (now : Nat) (store : List SubRecord) (r₀ : SubRecord),
      pid ≠ "" → sid ≠ "" →
      store.find? (fun r => r.subscriptionId == sid) = some r₀ →
      ∃ l1 l2 u, store = l1 ++ r₀ :: l2 ∧
        verifySubscriptionPayment (some pid) (some sid)
            (some (hmacSha256Hex secret (pid ++ "|" ++ sid))) secret gwSub gwPayment now store =
          ⟨.ok (some u), l1 ++ u :: l2, ["subscriptions.fetch", "payments.fetch"]⟩ ∧
        u.status = gwSub.status ∧
        u.paidCount = gwSub.paid_count ∧
        u.remainingCount = gwSub.remaining_count.getD gwSub.total_count ∧
        u.lastPaymentId = some pid ∧
        u.lastChargedAt =
          (if numTruthy gwPayment.created_at then toDate gwPayment.created_at else some now) ∧
        u.currentStart = toDate gwSub.current_start ∧
        u.currentEnd = toDate gwSub.current_end ∧
        u.chargeAt = toDate gwSub.charge_at ∧
        u.activatedAt = (if gwSub.status == "active" then some now else r₀.activatedAt)) := by
  constructor
  · intro pid sid sig secret gwSub gwPayment now store r₀ hpid hsid hsg hmis hfind
    obtain ⟨l1, l2, hsplit, heq⟩ :=
      findOneAndUpdateById_eq_of_find? sid applyVerifyFailed store r₀ hfind
    refine ⟨l1, l2, hsplit, ?_⟩
    unfold verifySubscriptionPayment
    rw [if_neg (by simp [strTruthy, hpid, hsid, hsg])]
    simp only [Option.getD_some]
    rw [if_pos (Ne.symm hmis), heq]
    rfl
  · intro pid sid secret gwSub gwPayment now store r₀ hpid hsid hfind
    obtain ⟨l1, l2, hsplit, heq⟩ := findOneAndUpdateById_eq_of_find? sid
      (applyVerifyPayment pid gwSub gwPayment now) store r₀ hfind
    refine ⟨l1, l2, applyVerifyPayment pid gwSub gwPayment now r₀,
      hsplit, ?_, rfl, rfl, rfl, rfl, rfl, rfl, rfl, rfl, rfl⟩
    unfold verifySubscriptionPayment
    rw [if_neg (by simp [strTruthy, hpid, hsid, hmacSha256Hex_ne_empty])]
    simp only [Option.getD_some]
    rw [if_neg (fun hh => hh rfl), heq]

/-- C8 witness: a wrong concrete signature marks the stored record `failed`
with reason "Invalid signature" and errors out; the genuine recomputed
signature over `pay-1|sub-1` updates the record from the gateway data. -/
theorem verify_payment_spec_witness :
    (∃ l1 l2, ([sampleSub] : List SubRecord) = l1 ++ sampleSub :: l2 ∧
      verifySubscriptionPayment (some "pay-1") (some "sub-1") (some "deadbeef") "rzp-secret"
          sampleGwSub samplePayment 1000 [sampleSub] =
        ⟨.apiError 400 "Invalid payment signature",
         l1 ++ { sampleSub with status := "failed", failureReason := some "Invalid signature" } :: l2,
         []⟩) ∧
    (∃ l1 l2 u, ([sampleSub] : List SubRecord) = l1 ++ sampleSub :: l2 ∧
      verifySubscriptionPayment (some "pay-1") (some "sub-1")
          (some (hmacSha256Hex "rzp-secret" ("pay-1" ++ "|" ++ "sub-1"))) "rzp-secret"
          sampleGwSub samplePayment 1000 [sampleSub] =
        ⟨.ok (some u), l1 ++ u :: l2, ["subscriptions.fetch", "payments.fetch"]⟩ ∧
      u.status = sampleGwSub.status ∧
      u.paidCount = sampleGwSub.paid_count ∧
      u.remainingCount = sampleGwSub.remaining_count.getD sampleGwSub.total_count ∧
      u.lastPaymentId = some "pay-1" ∧
      u.lastChargedAt =
        (if numTruthy samplePayment.created_at then toDate samplePayment.created_at
          else some 1000) ∧
      u.currentStart = toDate sampleGwSub.current_start ∧
      u.currentEnd = toDate sampleGwSub.current_end ∧
      u.chargeAt = toDate sampleGwSub.charge_at ∧
      u.activatedAt = (if sampleGwSub.status == "active" then some 1000
        else sampleSub.activatedAt)) :=
  ⟨verify_payment_spec.1 "pay-1" "sub-1" "deadbeef" "rzp-secret" sampleGwSub samplePayment 1000
      [sampleSub] sampleSub (by decide) (by decide) (by decide) (by decide) (by decide),
   verify_payment_spec.2 "pay-1" "sub-1" "rzp-secret" sampleGwSub samplePayment 1000
      [sampleSub] sampleSub (by decide) (by decide) (by decide)⟩

/-! ### C1 and C3 -/

/-- The derived-counter invariant of C1. -/
def counterInv (r : SubRecord) : Prop :=
  r.remainingCount = max (r.totalCount - r.paidCount) 0

instance : DecidablePred counterInv := fun r =>
  inferInstanceAs (Decidable (r.remainingCount = max (r.totalCount - r.paidCount) 0))

theorem ite_eq_max (d : Int) : (if 0 ≤ d then d else 0) = max d 0 := by
  rcases le_or_lt 0 d with h | h
  · rw [if_pos h, max_eq_left h]
  · rw [if_neg (not_le.mpr h), max_eq_right h.le]

/-- The save-path hook establishes the derived-counter invariant. -/
theorem preSave_counterInv (r : SubRecord) : counterInv (preSave r) :=
  ite_eq_max _

/-- A gateway subscription entity whose `remaining_count` is consistent with
the stored record `sampleSub` (12 total, 2 paid). -/
def consistentGwSub : RzSub := { sampleGwSub with remaining_count := some 10 }

/-- C1 counterexample: the claim fails on the `subscription.charged`
update-path persist — `findOneAndUpdate` does not run the `pre("save")`
hook, and the handler stores the payload's `remaining_count` (5) while the
record keeps `totalCount = 12` and receives `paidCount = 2`, so
`remainingCount ≠ max(totalCount - paidCount, 0) = 10` right after the
persist. -/
theorem remaining_count_invariant_cex :
    (handleSubscriptionCharged (some ⟨some sampleGwSub, some samplePayment⟩) 1000
        [sampleSub]).map SubRecord.remainingCount = [5] ∧
    (handleSubscriptionCharged (some ⟨some sampleGwSub, some samplePayment⟩) 1000
        [sampleSub]).map SubRecord.totalCount = [12] ∧
    (handleSubscriptionCharged (some ⟨some sampleGwSub, some samplePayment⟩) 1000
        [sampleSub]).map SubRecord.paidCount = [2] ∧
    max ((12 : Int) - 2) 0 ≠ 5 := by
  decide

set_option maxHeartbeats 1000000 in
/-- C1 (amended): `remainingCount == max(totalCount - paidCount, 0)` holds
immediately after the creation persist — `Subscription.create` is a
save-path persist and the `pre("save")` hook recomputes the counter — and
the `findOneAndUpdate` persists that leave the counters untouched (the
cancel/pause/resume actions and the authenticated, pending, completed,
cancelled, paused, resumed, halted and payment.failed handlers, and the
failed-marking persist of payment verification on a signature mismatch,
which writes only status and failureReason) preserve it; the
`findOneAndUpdate` persists of `subscription.charged`,
`subscription.activated` and the payment-verification success update do
not run the hook: they store the payload's `remaining_count ?? total_count`
verbatim, so the invariant holds right after them exactly when that payload
value equals `max(stored totalCount - payload paid_count, 0)`, and can fail
otherwise (see the counterexample). -/
theorem remaining_count_invariant_amended :
    (∀ plan_id userId email plans customerFetchOk gfc gcc gwSub store rec,
      (createSubscription plan_id userId email plans customerFetchOk gfc gcc gwSub
          store).result = .ok (some rec) →
      counterInv rec) ∧
    (∀ sid uid flag gw now store, (∀ r ∈ store, counterInv r) →
      ∀ r' ∈ (cancelSubscription sid uid flag gw now store).store, counterInv r') ∧
    (∀ sid uid gw now store, (∀ r ∈ store, counterInv r) →
      ∀ r' ∈ (pauseSubscription sid uid gw now store).store, counterInv r') ∧
    (∀ sid uid gw now store, (∀ r ∈ store, counterInv r) →
      ∀ r' ∈ (resumeSubscription sid uid gw now store).store, counterInv r') ∧
    (∀ payload store, (∀ r ∈ store, counterInv r) →
      ∀ r' ∈ handleSubscriptionAuthenticated payload store, counterInv r') ∧
    (∀ payload store, (∀ r ∈ store, counterInv r) →
      ∀ r' ∈ handleSubscriptionPending payload store, counterInv r') ∧
    (∀ payload now store, (∀ r ∈ store, counterInv r) →
      ∀ r' ∈ handleSubscriptionCompleted payload now store, counterInv r') ∧
    (∀ payload now store, (∀ r ∈ store, counterInv r) →
      ∀ r' ∈ handleSubscriptionCancelled payload now store, counterInv r') ∧
    (∀ payload now store, (∀ r ∈ store, counterInv r) →
      ∀ r' ∈ handleSubscriptionPaused payload now store, counterInv r') ∧
    (∀ payload now store, (∀ r ∈ store, counterInv r) →
      ∀ r' ∈ handleSubscriptionResumed payload now store, counterInv r') ∧
    (∀ payload now store, (∀ r ∈ store, counterInv r) →
      ∀ r' ∈ handleSubscriptionHalted payload now store, counterInv r') ∧
    (∀ payload now store, (∀ r ∈ store, counterInv r) →
      ∀ r' ∈ handlePaymentFailed payload now store, counterInv r') ∧
    (∀ paymentId s now r,
      counterInv (applyCharged paymentId s now r) ↔
        s.remaining_count.getD s.total_count = max (r.totalCount - s.paid_count) 0) ∧
    (∀ s now r,
      counterInv (applyActivated s now r) ↔
        s.remaining_count.getD s.total_count = max (r.totalCount - s.paid_count) 0) ∧
    (∀ (pid sid sig secret : String) (gwSub : RzSub) (gwPayment : RzPayment) (now : Nat)
        (store : List SubRecord), (∀ r ∈ store, counterInv r) →
      pid ≠ "" → sid ≠ "" → sig ≠ "" →
      sig ≠ hmacSha256Hex secret (pid ++ "|" ++ sid) →
      ∀ r' ∈ (verifySubscriptionPayment (some pid) (some sid) (some sig) secret gwSub
          gwPayment now store).store, counterInv r') ∧
    (∀ (pid sid secret : String) (gwSub : RzSub) (gwPayment : RzPayment) (now : Nat)
        (store : List SubRecord), (∀ r ∈ store, counterInv r) →
      (∀ r ∈ store, gwSub.remaining_count.getD gwSub.total_count =
        max (r.totalCount - gwSub.paid_count) 0) →
      pid ≠ "" → sid ≠ "" →
      ∀ r' ∈ (verifySubscriptionPayment (some pid) (some sid)
          (some (hmacSha256Hex secret (pid ++ "|" ++ sid))) secret gwSub gwPayment now
          store).store, counterInv r') ∧
    (∀ (pid : String) (gwSub : RzSub) (gwPayment : RzPayment) (now : Nat) (r : SubRecord),
      counterInv (applyVerifyPayment pid gwSub gwPayment now r) ↔
        gwSub.remaining_count.getD gwSub.total_count =
          max (r.totalCount - gwSub.paid_count) 0) := by
  refine ⟨?_, ?_, ?_, ?_, ?_, ?_, ?_, ?_, ?_, ?_, ?_, ?_, ?_, ?_, ?_, ?_, ?_⟩
  · intro plan_id userId email plans customerFetchOk gfc gcc gwSub store rec h
    revert h
    unfold createSubscription
    by_cases h1 : strTruthy plan_id = false
    · rw [if_pos h1]
      intro h
      exact absurd h (by simp)
    rw [if_neg h1]
    by_cases h2 : strTruthy email = false
    · rw [if_pos h2]
      intro h
      exact absurd h (by simp)
    rw [if_neg h2]
    cases hp : plans.find? (fun p => p.razorpayPlanId == plan_id.getD "" && p.isActive) with
    | none =>
      intro h
      exact absurd h (by simp [hp])
    | some p =>
      cases hd : store.find? (fun r => r.userId == userId && r.planId == plan_id.getD "" &&
          ["created", "authenticated", "active", "pending"].contains r.status) with
      | some r1 =>
        intro h
        simp only [hp] at h
        rw [hd] at h
        simp at h
      | none =>
        intro h
        simp only [hp] at h
        rw [hd] at h
        simp at h
        subst h
        exact preSave_counterInv _
  · intro sid uid flag gw now store hinv r' hr'
    cases hfind : store.find? (fun r => r.subscriptionId == sid && r.userId == uid) with
    | none =>
      simp only [cancelSubscription, hfind] at hr'
      exact hinv r' hr'
    | some sub =>
      simp only [cancelSubscription, hfind] at hr'
      by_cases hc : sub.canCancel = false
      · rw [if_pos hc] at hr'
        exact hinv r' hr'
      · rw [if_neg hc] at hr'
        refine findOneAndUpdateById_forall counterInv sid _ ?_ store hinv r' hr'
        exact fun r hr => hr
  · intro sid uid gw now store hinv r' hr'
    cases hfind : store.find? (fun r => r.subscriptionId == sid && r.userId == uid) with
    | none =>
      simp only [pauseSubscription, hfind] at hr'
      exact hinv r' hr'
    | some sub =>
      simp only [pauseSubscription, hfind] at hr'
      by_cases hc : sub.canPause = false
      · rw [if_pos hc] at hr'
        exact hinv r' hr'
      · rw [if_neg hc] at hr'
        refine findOneAndUpdateById_forall counterInv sid _ ?_ store hinv r' hr'
        exact fun r hr => hr
  · intro sid uid gw now store hinv r' hr'
    cases hfind : store.find? (fun r => r.subscriptionId == sid && r.userId == uid) with
    | none =>
      simp only [resumeSubscription, hfind] at hr'
      exact hinv r' hr'
    | some sub =>
      simp only [resumeSubscription, hfind] at hr'
      by_cases hc : sub.canResume = false
      · rw [if_pos hc] at hr'
        exact hinv r' hr'
      · rw [if_neg hc] at hr'
        refine findOneAndUpdateById_forall counterInv sid _ ?_ store hinv r' hr'
        exact fun r hr => hr
  · intro payload store hinv r' hr'
    rcases payload with _ | ⟨_ | s, pm⟩
    · exact hinv r' hr'
    · exact hinv r' hr'
    · refine findOneAndUpdateById_forall counterInv s.id _ ?_ store hinv r' hr'
      exact fun r hr => hr
  · intro payload store hinv r' hr'
    rcases payload with _ | ⟨_ | s, pm⟩
    · exact hinv r' hr'
    · exact hinv r' hr'
    · refine findOneAndUpdateById_forall counterInv s.id _ ?_ store hinv r' hr'
      exact fun r hr => hr
  · intro payload now store hinv r' hr'
    rcases payload with _ | ⟨_ | s, pm⟩
    · exact hinv r' hr'
    · exact hinv r' hr'
    · refine findOneAndUpdateById_forall counterInv s.id _ ?_ store hinv r' hr'
      exact fun r hr => hr
  · intro payload now store hinv r' hr'
    rcases payload with _ | ⟨_ | s, pm⟩
    · exact hinv r' hr'
    · exact hinv r' hr'
    · refine findOneAndUpdateById_forall counterInv s.id _ ?_ store hinv r' hr'
      exact fun r hr => hr
  · intro payload now store hinv r' hr'
    rcases payload with _ | ⟨_ | s, pm⟩
    · exact hinv r' hr'
    · exact hinv r' hr'
    · refine findOneAndUpdateById_forall counterInv s.id _ ?_ store hinv r' hr'
      exact fun r hr => hr
  · intro payload now store hinv r' hr'
    rcases payload with _ | ⟨_ | s, pm⟩
    · exact hinv r' hr'
    · exact hinv r' hr'
    · refine findOneAndUpdateById_forall counterInv s.id _ ?_ store hinv r' hr'
      exact fun r hr => hr
  · intro payload now store hinv r' hr'
    rcases payload with _ | ⟨_ | s, pm⟩
    · exact hinv r' hr'
    · exact hinv r' hr'
    · refine findOneAndUpdateById_forall counterInv s.id _ ?_ store hinv r' hr'
      exact fun r hr => hr
  · intro payload now store hinv r' hr'
    rcases payload with _ | ⟨su, _ | pay⟩
    · exact hinv r' hr'
    · exact hinv r' hr'
    · by_cases ht : strTruthy pay.subscription_id = true
      · simp only [handlePaymentFailed, ht, if_true] at hr'
        refine findOneAndUpdateById_forall counterInv _ _ ?_ store hinv r' hr'
        exact fun r hr => hr
      · simp only [handlePaymentFailed, ht, if_false] at hr'
        exact hinv r' hr'
  · intro paymentId s now r
    exact Iff.rfl
  · intro s now r
    exact Iff.rfl
  · intro pid sid sig secret gwSub gwPayment now store hinv hpid hsid hsg hmis r' hr'
    have hrun : verifySubscriptionPayment (some pid) (some sid) (some sig) secret gwSub
        gwPayment now store =
        ⟨.apiError 400 "Invalid payment signature",
         (findOneAndUpdateById sid applyVerifyFailed store).1, []⟩ := by
      unfold verifySubscriptionPayment
      rw [if_neg (by simp [strTruthy, hpid, hsid, hsg])]
      simp only [Option.getD_some]
      rw [if_pos (Ne.symm hmis)]
    rw [hrun] at hr'
    refine findOneAndUpdateById_forall counterInv sid _ ?_ store hinv r' hr'
    exact fun r hr => hr
  · intro pid sid secret gwSub gwPayment now store hinv hcons hpid hsid r' hr'
    have hrun : (verifySubscriptionPayment (some pid) (some sid)
        (some (hmacSha256Hex secret (pid ++ "|" ++ sid))) secret gwSub gwPayment now
        store).store =
        (findOneAndUpdateById sid (applyVerifyPayment pid gwSub gwPayment now) store).1 := by
      unfold verifySubscriptionPayment
      rw [if_neg (by simp [strTruthy, hpid, hsid, hmacSha256Hex_ne_empty])]
      simp only [Option.getD_some]
      rw [if_neg (fun hh => hh rfl)]
      cases (findOneAndUpdateById sid (applyVerifyPayment pid gwSub gwPayment now) store).2 <;>
        rfl
    rw [hrun] at hr'
    have hall : ∀ r ∈ store, counterInv r ∧
        gwSub.remaining_count.getD gwSub.total_count =
          max (r.totalCount - gwSub.paid_count) 0 :=
      fun r hr => ⟨hinv r hr, hcons r hr⟩
    refine (findOneAndUpdateById_forall (fun r => counterInv r ∧
        gwSub.remaining_count.getD gwSub.total_count =
          max (r.totalCount - gwSub.paid_count) 0)
      sid _ ?_ store hall r' hr').1
    exact fun r hr => ⟨hr.2, hr.2⟩
  · intro pid gwSub gwPayment now r
    exact Iff.rfl

/-- C1 witness: the charged-consistency conjunct at a payload whose
`remaining_count` (10) matches the stored `totalCount` (12) minus the
payload `paid_count` (2); the failed-marking persist of payment
verification at a concrete mismatched signature; and the verification
success update at the same consistent payload, under a genuine computed
signature. -/
theorem remaining_count_invariant_amended_witness :
    counterInv (applyCharged "pay-1" consistentGwSub 1000 sampleSub) ∧
    counterInv (applyVerifyFailed sampleSub) ∧
    counterInv (applyVerifyPayment "pay-1" consistentGwSub samplePayment 1000 sampleSub) :=
  ⟨(remaining_count_invariant_amended.2.2.2.2.2.2.2.2.2.2.2.2.1 "pay-1" consistentGwSub 1000
      sampleSub).mpr (by decide),
   remaining_count_invariant_amended.2.2.2.2.2.2.2.2.2.2.2.2.2.2.1 "pay-1" "sub-1" "deadbeef"
      "rzp-secret" sampleGwSub samplePayment 1000 [sampleSub] (by decide) (by decide)
      (by decide) (by decide) (by decide) (applyVerifyFailed sampleSub) (by decide),
   remaining_count_invariant_amended.2.2.2.2.2.2.2.2.2.2.2.2.2.2.2.1 "pay-1" "sub-1"
      "rzp-secret" consistentGwSub samplePayment 1000 [sampleSub] (by decide) (by decide)
      (by decide) (by decide)
      (applyVerifyPayment "pay-1" consistentGwSub samplePayment 1000 sampleSub) (by decide)⟩

/-- C3 counterexample: a `paused` subscription for (user-1, plan-1) is
non-terminal, yet `createSubscription` for the same user and plan does not
fail with the conflict error — it proceeds to issue gateway calls and
creates a record. The duplicate guard only checks statuses
created/authenticated/active/pending. -/
theorem duplicate_create_guard_cex :
    SubRecord.isTerminal pausedSub = false ∧
    pausedSub.userId = "user-1" ∧ pausedSub.planId = "plan-1" ∧
    (createSubscription (some "plan-1") "user-1" (some "user@example.com") [samplePlan] true
        ⟨"cust-1"⟩ ⟨"cust-9"⟩ sampleGwSub [pausedSub]).gatewayCalls ≠ [] ∧
    (createSubscription (some "plan-1") "user-1" (some "user@example.com") [samplePlan] true
        ⟨"cust-1"⟩ ⟨"cust-9"⟩ sampleGwSub [pausedSub]).result ≠
      .apiError 400 "You already have an active subscription for this plan" := by
  decide

/-- C3 (amended): when a subscription with status in
{created, authenticated, active, pending} already exists for the same
(user, plan) — a strict subset of the non-terminal statuses; paused,
halted, pending_cancellation and failed do not block creation — the create
action fails with the 400 conflict `ApiError` before any gateway call is
issued, and the store is unchanged. -/
theorem duplicate_create_guard_amended (plan_id : Option String) (userId : String)
    (email : Option String) (plans : List Plan) (customerFetchOk : Bool)
    (gfc gcc : RzCustomer) (gwSub : RzSub) (store : List SubRecord)
    (hplan : strTruthy plan_id = true) (hemail : strTruthy email = true)
    (hplanActive : ∃ p ∈ plans, p.razorpayPlanId = plan_id.getD "" ∧ p.isActive = true)
    (hdup : ∃ r ∈ store, r.userId = userId ∧ r.planId = plan_id.getD "" ∧
      (r.status = "created" ∨ r.status = "authenticated" ∨ r.status = "active" ∨
        r.status = "pending")) :
    createSubscription plan_id userId email plans customerFetchOk gfc gcc gwSub store =
      ⟨.apiError 400 "You already have an active subscription for this plan", store, []⟩ := by
  unfold createSubscription
  rw [if_neg (by simp [hplan]), if_neg (by simp [hemail])]
  obtain ⟨p₀, hp₀mem, hp₀id, hp₀act⟩ := hplanActive
  have hpfind : (plans.find? (fun p => p.razorpayPlanId == plan_id.getD "" && p.isActive)).isSome := by
    rw [List.find?_isSome]
    exact ⟨p₀, hp₀mem, by simp [hp₀id, hp₀act]⟩
  obtain ⟨p₁, hp₁⟩ := Option.isSome_iff_exists.mp hpfind
  simp only [hp₁]
  obtain ⟨r₀, hr₀mem, hr₀uid, hr₀pid, hr₀st⟩ := hdup
  have hrfind : (store.find? (fun r => r.userId == userId && r.planId == plan_id.getD "" &&
      ["created", "authenticated", "active", "pending"].contains r.status)).isSome := by
    rw [List.find?_isSome]
    refine ⟨r₀, hr₀mem, ?_⟩
    rcases hr₀st with h | h | h | h <;> simp [hr₀uid, hr₀pid, h]
  obtain ⟨r₁, hr₁⟩ := Option.isSome_iff_exists.mp hrfind
  rw [hr₁]

/-- C3 witness: a `created`-status subscription for (user-1, plan-1) makes
a second create for the same pair fail with the conflict error, no gateway
call issued, store unchanged. -/
theorem duplicate_create_guard_amended_witness :
    createSubscription (some "plan-1") "user-1" (some "user@example.com") [samplePlan] true
        ⟨"cust-1"⟩ ⟨"cust-9"⟩ sampleGwSub [{ sampleSub with status := "created" }] =
      ⟨.apiError 400 "You already have an active subscription for this plan",
       [{ sampleSub with status := "created" }], []⟩ :=
  duplicate_create_guard_amended (some "plan-1") "user-1" (some "user@example.com") [samplePlan]
    true ⟨"cust-1"⟩ ⟨"cust-9"⟩ sampleGwSub [{ sampleSub with status := "created" }]
    (by decide) (by decide) (by decide) (by decide)

end NewsBullet
